import Mathlib

/-!
Shallow embedding of the credential and token lifecycle code of the
ProjectManagement repository (Express + Mongoose auth controller, user
model, auth middleware and mail utility), together with theorems checking
the natural-language specification against it.

Conventions of the embedding:
  * A Mongoose user document is `UserRec`; the database is a `List UserRec`
    and `User.findOne` is `List.find?` (first match wins, as in MongoDB
    without an explicit sort the model treats the list order as the store
    order).
  * JavaScript truthiness of request-body strings: a field is falsy when it
    is `undefined` (here `none`) or the empty string.
  * `bcrypt.hash` / `bcrypt.compare`, `jwt.sign` and SHA-256 are opaque
    cryptographic primitives of the runtime; they enter the embedding as
    function parameters (`bhash`, `bverify`, `signAT`, `signRT`,
    `sha256hex`) so that every definition stays executable and theorems
    can state exactly which assumptions about them are used.
  * `Date.now()` is a `Nat` parameter `now` in milliseconds.
-/

/-- A user document, after the fields of `userSchema` in the user model
(`avatar`, timestamps and role data are irrelevant to the claims and
omitted).  `password` stores the bcrypt hash once the document has been
saved.  Optional fields are absent (`none`) exactly when the Mongoose
document has them `undefined`. -/
structure UserRec where
  id : Nat
  username : String
  email : String
  fullname : String
  password : String
  isEmailVerified : Bool
  refreshToken : Option String
  emailVerificationToken : Option String
  emailVerificationExpiry : Option Nat
  forgotPasswordToken : Option String
  forgotPasswordExpiry : Option Nat
deriving Repr, DecidableEq

/-- `ApiError` from `utils/api-error.js`: an HTTP status code and a
human-readable message. -/
structure ApiError where
  statusCode : Nat
  message : String
deriving Repr, DecidableEq

/-- JavaScript truthiness test used on request-body string fields:
`!field` is true when the field is `undefined` or the empty string. -/
def jsFalsy : Option String → Bool
  | none => true
  | some s => s.isEmpty

/-- Mongoose `findOne({email})`: first record in store order whose email
matches. -/
def findByEmail (db : List UserRec) (e : String) : Option UserRec :=
  db.find? (fun u => u.email == e)

/-- Mongoose `findById`. -/
def findById (db : List UserRec) (i : Nat) : Option UserRec :=
  db.find? (fun u => u.id == i)

/-- Writing a (possibly mutated) document back to the store: Mongoose
`save` replaces the stored document with the same `_id`. -/
def writeBack (db : List UserRec) (u : UserRec) : List UserRec :=
  db.map (fun v => if v.id == u.id then u else v)

/-! ## The select projection

`registerUser`, `loginUser` and the `verifyJWT` middleware all build the
outward-facing user object with
`.select("-password -refreshToken -emailVerificationToken -emailVerificationExpiry")`.
The embedding renders a document as an association list of its present
fields and the exclusion projection as a filter, after Mongoose's
semantics for a `-`-prefixed select string. -/

/-- The fields of a user document as Mongoose would serialise them:
optional fields appear only when set.  Values are rendered to `String`;
only the keys matter to the claims. -/
def userFields (u : UserRec) : List (String × String) :=
  [("_id", toString u.id),
   ("username", u.username),
   ("email", u.email),
   ("fullname", u.fullname),
   ("password", u.password),
   ("isEmailVerified", toString u.isEmailVerified)]
  ++ (match u.refreshToken with
      | some t => [("refreshToken", t)]
      | none => [])
  ++ (match u.emailVerificationToken with
      | some t => [("emailVerificationToken", t)]
      | none => [])
  ++ (match u.emailVerificationExpiry with
      | some e => [("emailVerificationExpiry", toString e)]
      | none => [])
  ++ (match u.forgotPasswordToken with
      | some t => [("forgotPasswordToken", t)]
      | none => [])
  ++ (match u.forgotPasswordExpiry with
      | some e => [("forgotPasswordExpiry", toString e)]
      | none => [])

/-- Split a character list on spaces (the tokenizer Mongoose applies to a
space-separated select string). -/
def splitOnSpaceAux : List Char → List Char → List (List Char)
  | [], acc => [acc.reverse]
  | c :: rest, acc =>
    if c = ' ' then acc.reverse :: splitOnSpaceAux rest []
    else splitOnSpaceAux rest (c :: acc)

/-- Parse a Mongoose exclusion select string such as
`"-password -refreshToken"` into the list of excluded keys: split on
spaces and keep the `-`-prefixed tokens without their leading dash. -/
def parseExclusions (s : String) : List String :=
  (splitOnSpaceAux s.data []).filterMap
    (fun t => match t with
      | '-' :: k => some (String.mk k)
      | _ => none)

/-- Apply an exclusion projection to a serialised document. -/
def applySelect (s : String) (fields : List (String × String)) :
    List (String × String) :=
  fields.filter (fun kv => !(parseExclusions s).contains kv.1)

/-- The select string shared by `registerUser`, `loginUser` and
`verifyJWT`. -/
def sensitiveSelect : String :=
  "-password -refreshToken -emailVerificationToken -emailVerificationExpiry"

/-- The outward-facing user summary: the document fields after the
sensitive-field exclusion projection. -/
def selectedUser (u : UserRec) : List (String × String) :=
  applySelect sensitiveSelect (userFields u)

/-! ## The user model's document behaviour (`user.model.js`) -/

/-- A live Mongoose document: the record plus the dirty flag that
`isModified("password")` reads.  Loading from the store gives a clean
document; assigning to `password` sets the flag; assigning to any other
path leaves it untouched. -/
structure UDoc where
  urec : UserRec
  passwordModified : Bool
deriving Repr, DecidableEq

/-- A document freshly loaded from the store (`findById` / `findOne`):
no path is modified. -/
def loadDoc (u : UserRec) : UDoc :=
  { urec := u, passwordModified := false }

/-- Assignment `user.password = p`. -/
def setPassword (d : UDoc) (p : String) : UDoc :=
  { urec := { d.urec with password := p }, passwordModified := true }

/-- Assignment `user.refreshToken = t` (or `$unset` when `none`). -/
def setRefreshToken (d : UDoc) (t : Option String) : UDoc :=
  { urec := { d.urec with refreshToken := t }, passwordModified := d.passwordModified }

/-- Assignments `user.emailVerificationToken = tok` and
`user.emailVerificationExpiry = exp` (clearing when `none`). -/
def setEmailVerification (d : UDoc) (tok : Option String) (expi : Option Nat) :
    UDoc :=
  { urec := { d.urec with emailVerificationToken := tok,
                          emailVerificationExpiry := expi },
    passwordModified := d.passwordModified }

/-- Assignment `user.isEmailVerified = b`. -/
def setIsEmailVerified (d : UDoc) (b : Bool) : UDoc :=
  { urec := { d.urec with isEmailVerified := b }, passwordModified := d.passwordModified }

/-- `preSavePasswordHash`, the schema's pre-save hook: bcrypt-hash the
password if and only if the `password` path was modified.  Mongoose resets
the modified-paths set once the save completes. -/
def saveDoc (bhash : String → String) (d : UDoc) : UDoc :=
  if d.passwordModified then
    { urec := { d.urec with password := bhash d.urec.password },
      passwordModified := false }
  else d

/-- `generateTemporaryToken`'s result record. -/
structure TempToken where
  unHashedToken : String
  hashedToken : String
  tokenExpiry : Nat
deriving Repr, DecidableEq

/-- Lower-case hex digit for a value below 16, as `Buffer.toString("hex")`
produces. -/
def hexDigit (n : Nat) : Char :=
  if n < 10 then Char.ofNat (48 + n) else Char.ofNat (87 + n)

/-- Hex encoding of a byte list, after Node's
`Buffer.toString("hex")`: two lower-case hex digits per byte. -/
def bytesToHex (bs : List Nat) : String :=
  String.mk (bs.flatMap (fun b => [hexDigit (b / 16), hexDigit (b % 16)]))

/-- `generateTemporaryToken` from the user model: hex-encode 20
cryptographically random bytes (`crypto.randomBytes(20)`, supplied here as
`rnd`), SHA-256 the plaintext for storage, and stamp an expiry of
`Date.now() + 20 * 60 * 1000`. -/
def generateTemporaryToken (sha256hex : String → String) (rnd : List Nat)
    (now : Nat) : TempToken :=
  { unHashedToken := bytesToHex rnd,
    hashedToken := sha256hex (bytesToHex rnd),
    tokenExpiry := now + 20 * 60 * 1000 }

/-! ## Mail utility (`utils/mail.js`) -/

/-- The Nodemailer transport call: delivery either succeeds or fails; the
embedding exposes the outcome as a boolean environment parameter. -/
def sendMailTransport (dispatchOk : Bool) : Except String Unit :=
  if dispatchOk then .ok () else .error "transport failure"

/-- `sendEmail` from the mail utility: the transport call sits in a
`try`/`catch` whose handler only logs, so a dispatch failure is swallowed
and the function returns normally either way. -/
def sendEmail (dispatchOk : Bool) : Unit :=
  match sendMailTransport dispatchOk with
  | .ok _ => ()
  | .error _ => ()

/-! ## Auth controller (`controllers/auth.controller.js`) -/

/-- `generateAccessAndRefreshToken`: load the user, sign both tokens,
store the refresh token on the document and save.  Any failure inside the
`try` (here: the user id resolving to no document) becomes the single 500
error. -/
def generateAccessAndRefreshToken (bhash : String → String)
    (signAT signRT : UserRec → String) (db : List UserRec) (userId : Nat) :
    Except ApiError (String × String × List UserRec) :=
  match findById db userId with
  | none => .error ⟨500, "Something went wrong while generating access token"⟩
  | some u =>
    let accessToken := signAT u
    let refreshToken := signRT u
    let d := setRefreshToken (loadDoc u) (some refreshToken)
    let u2 := (saveDoc bhash d).urec
    .ok (accessToken, refreshToken, writeBack db u2)

/-- The login request body as destructured by `loginUser`: all three
fields may be absent. -/
structure LoginBody where
  email : Option String
  username : Option String
  password : Option String
deriving Repr, DecidableEq

/-- A successful login response: status, the selected user summary (or
`null` if the re-fetch finds nothing), both tokens, and the resulting
store state. -/
structure LoginOk where
  statusCode : Nat
  user : Option (List (String × String))
  accessToken : String
  refreshToken : String
  db : List UserRec
deriving Repr, DecidableEq

/-- `loginUser`: guard the two required fields, look up by email only,
bcrypt-compare the password, then issue and persist tokens and return the
selected summary. -/
def loginUser (bhash : String → String) (bverify : String → String → Bool)
    (signAT signRT : UserRec → String) (db : List UserRec) (body : LoginBody) :
    Except ApiError LoginOk :=
  if jsFalsy body.email then .error ⟨400, "Username or email is required"⟩
  else if jsFalsy body.password then .error ⟨400, "password is required"⟩
  else
    match findByEmail db (body.email.getD "") with
    | none => .error ⟨404, "User doesn't exists"⟩
    | some u =>
      if !(bverify (body.password.getD "") u.password) then
        .error ⟨401, "!Invalid username or password"⟩
      else
        match generateAccessAndRefreshToken bhash signAT signRT db u.id with
        | .error e => .error e
        | .ok (accessToken, refreshToken, db1) =>
          .ok { statusCode := 200,
                user := (findById db1 u.id).map selectedUser,
                accessToken := accessToken,
                refreshToken := refreshToken,
                db := db1 }

/-- Removing the `refreshToken` path from a document (`$unset`). -/
def clearRT (v : UserRec) : UserRec :=
  { v with refreshToken := none }

/-- The store-side effect of `findByIdAndUpdate(id, {$unset:
{refreshToken: 1}})` on one stored document. -/
def clearRefresh (userId : Nat) (v : UserRec) : UserRec :=
  if v.id == userId then clearRT v else v

/-- `logoutUser`: `findByIdAndUpdate` with `$unset: {refreshToken: 1}` —
clears the reference if the record exists, is a no-op otherwise, and in
either case the handler answers 200 "User logged out". -/
def logoutUser (db : List UserRec) (userId : Nat) :
    List UserRec × Nat × String :=
  (db.map (clearRefresh userId), 200, "User logged out")

/-- The `verifyJWT` middleware after a structurally valid access token
carrying `tokenId`: fetch the user with the sensitive-field exclusion and
attach the summary, or fail 401. -/
def verifyJWT (db : List UserRec) (tokenId : Nat) :
    Except ApiError (List (String × String)) :=
  match findById db tokenId with
  | none => .error ⟨401, "Invalid access token"⟩
  | some u => .ok (selectedUser u)

/-- `getCurrentUser`: return `req.user` as attached by `verifyJWT`. -/
def getCurrentUser (reqUser : List (String × String)) :
    Nat × List (String × String) :=
  (200, reqUser)

/-- The Mongo query condition `emailVerificationExpiry: {$gt: Date.now()}`:
matches only documents where the field is present and strictly greater. -/
def expiryGt (e : Option Nat) (now : Nat) : Bool :=
  match e with
  | some x => now < x
  | none => false

/-- `verifyUserEmail`: guard the token param, hash it, find a user whose
stored verification token matches with an unexpired expiry (one query, so
unknown and expired tokens are indistinguishable), then set the verified
flag, clear both pending-secret fields, and save. -/
def verifyUserEmail (bhash sha256hex : String → String) (now : Nat)
    (db : List UserRec) (verificationToken : Option String) :
    Except ApiError (List UserRec × Bool) :=
  if jsFalsy verificationToken then
    .error ⟨400, "Email verification token is missing"⟩
  else
    let hashedToken := sha256hex (verificationToken.getD "")
    match db.find? (fun u =>
        u.emailVerificationToken == some hashedToken
        && expiryGt u.emailVerificationExpiry now) with
    | none => .error ⟨400, "Token is invalid or expired"⟩
    | some u =>
      let d := setIsEmailVerified (setEmailVerification (loadDoc u) none none) true
      let u2 := (saveDoc bhash d).urec
      .ok (writeBack db u2, true)

/-- The register request body (validated upstream, so fields are plain
strings here). -/
structure RegisterBody where
  email : String
  username : String
  fullname : String
  password : String
deriving Repr, DecidableEq

/-- A successful register response. -/
structure RegisterOk where
  statusCode : Nat
  user : Option (List (String × String))
  message : String
  db : List UserRec
deriving Repr, DecidableEq

/-- `registerUser`: reject a duplicate email or username with 409, create
the record (the create-time save bcrypt-hashes the password), generate the
temporary verification token, store its hash and expiry, save again,
dispatch the verification mail (outcome ignored), re-fetch with the
sensitive-field exclusion and answer 201. -/
def registerUser (bhash sha256hex : String → String) (rnd : List Nat)
    (now : Nat) (emailDispatchOk : Bool) (freshId : Nat) (db : List UserRec)
    (body : RegisterBody) : Except ApiError RegisterOk :=
  match db.find? (fun u => u.email == body.email || u.username == body.username) with
  | some _ => .error ⟨409, "User with email or username already exists"⟩
  | none =>
    let d0 : UDoc :=
      { urec := { id := freshId, username := body.username, email := body.email,
                  fullname := body.fullname, password := body.password,
                  isEmailVerified := false, refreshToken := none,
                  emailVerificationToken := none, emailVerificationExpiry := none,
                  forgotPasswordToken := none, forgotPasswordExpiry := none },
        passwordModified := true }
    let d1 := saveDoc bhash d0
    let tk := generateTemporaryToken sha256hex rnd now
    let d2 := setEmailVerification d1 (some tk.hashedToken) (some tk.tokenExpiry)
    let d3 := saveDoc bhash d2
    let db1 := db ++ [d3.urec]
    let _ := sendEmail emailDispatchOk
    match findById db1 freshId with
    | none => .error ⟨500, "Something went wrong while registering a user"⟩
    | some cu =>
      .ok { statusCode := 201, user := some (selectedUser cu),
            message := "User registered successfully And verification email has been sent on your email",
            db := db1 }

/-- `resendEmailVerification`: fetch the authenticated user, refuse if
already verified, overwrite the pending secret with a fresh temporary
token, save, dispatch the mail (outcome ignored) and answer 200. -/
def resendEmailVerification (bhash sha256hex : String → String)
    (rnd : List Nat) (now : Nat) (emailDispatchOk : Bool) (db : List UserRec)
    (reqUserId : Nat) : Except ApiError (List UserRec × Nat × String) :=
  match findById db reqUserId with
  | none => .error ⟨404, "User not found"⟩
  | some u =>
    if u.isEmailVerified then .error ⟨409, "Email is already verified"⟩
    else
      let tk := generateTemporaryToken sha256hex rnd now
      let d := setEmailVerification (loadDoc u) (some tk.hashedToken) (some tk.tokenExpiry)
      let u2 := (saveDoc bhash d).urec
      let db1 := writeBack db u2
      let _ := sendEmail emailDispatchOk
      .ok (db1, 200, "Mail has been sent to your email id")

/-- Modelled from the spec: `changeCurrentPassword` is imported by the
auth router (`POST /change-password`, behind `verifyJWT`) but no
controller source in the repository defines it.  Per spec item 4.4 Change
Password: require the authenticated caller and current password, verify
the current password (fail `Unauthorized` on mismatch), then hash and
store the new password. -/
def changeCurrentPassword (bverify : String → String → Bool)
    (bhash : String → String) (db : List UserRec) (reqUserId : Nat)
    (oldPassword newPassword : String) :
    Except ApiError (List UserRec × Nat) :=
  match findById db reqUserId with
  | none => .error ⟨404, "User not found"⟩
  | some u =>
    if !(bverify oldPassword u.password) then
      .error ⟨401, "Invalid old password"⟩
    else
      let d := setPassword (loadDoc u) newPassword
      let u2 := (saveDoc bhash d).urec
      .ok (writeBack db u2, 200)

/-! ## Sample data for concrete evaluations

Concrete stand-ins for the cryptographic primitives and a couple of stored
records, used to evaluate the operations on closed inputs. -/

/-- A concrete stand-in for `bcrypt.hash` (prefixing). -/
def sampleHash (s : String) : String := "H:" ++ s

/-- The matching stand-in for `bcrypt.compare`. -/
def sampleVerify (p h : String) : Bool := h == "H:" ++ p

/-- A concrete stand-in for the SHA-256 hex digest (suffixing). -/
def sampleSha (s : String) : String := s ++ "#"

/-- A concrete stand-in for access-token signing. -/
def sampleSignA (u : UserRec) : String := u.username ++ "-access"

/-- A concrete stand-in for refresh-token signing. -/
def sampleSignR (u : UserRec) : String := u.username ++ "-refresh"

/-- A stored record with a pending verification secret. -/
def sampleUser : UserRec :=
  { id := 1, username := "alice", email := "a@x.com", fullname := "Alice",
    password := "H:Secret1!", isEmailVerified := false, refreshToken := none,
    emailVerificationToken := some "tok#", emailVerificationExpiry := some 1000,
    forgotPasswordToken := none, forgotPasswordExpiry := none }

/-- A stored record whose pending secret is the digest of "ab" but
expired (expiry 5). -/
def sampleUser2 : UserRec :=
  { id := 2, username := "bob", email := "b@x.com", fullname := "Bob",
    password := "H:Pw", isEmailVerified := false, refreshToken := some "r",
    emailVerificationToken := some "ab#", emailVerificationExpiry := some 5,
    forgotPasswordToken := none, forgotPasswordExpiry := none }

/-- The record state after a successful email verification: flag set,
pending secret cleared (the mutation sequence of `verifyUserEmail`). -/
def consumeVerification (u : UserRec) : UserRec :=
  { u with emailVerificationToken := none, emailVerificationExpiry := none,
           isEmailVerified := true }

/-- The record state after a password change: the stored hash replaced
wholesale (the mutation sequence of `changeCurrentPassword`). -/
def replacePassword (u : UserRec) (p : String) : UserRec :=
  { u with password := p }

/-- Fallback value for extracting a success payload. -/
def fallbackRegisterOk : RegisterOk :=
  { statusCode := 0, user := none, message := "", db := [] }

/-- Fallback value for extracting a success payload. -/
def fallbackLoginOk : LoginOk :=
  { statusCode := 0, user := none, accessToken := "", refreshToken := "", db := [] }

/-- Extract the payload of a successful register result. -/
def exOkReg : Except ApiError RegisterOk → RegisterOk
  | .ok x => x
  | .error _ => fallbackRegisterOk

/-- Extract the payload of a successful login result. -/
def exOkLogin : Except ApiError LoginOk → LoginOk
  | .ok x => x
  | .error _ => fallbackLoginOk

/-- A concrete register run on an empty store. -/
def regSample : Except ApiError RegisterOk :=
  registerUser sampleHash sampleSha [1, 2] 0 true 3 []
    ⟨"a@x.com", "alice", "Alice", "Secret1!"⟩

/-- A concrete successful login run. -/
def loginSample : Except ApiError LoginOk :=
  loginUser sampleHash sampleVerify sampleSignA sampleSignR [sampleUser]
    ⟨some "a@x.com", none, some "Secret1!"⟩

/-! ## Helper lemmas -/

/-- The exclusion select string parses to exactly the four sensitive
keys. -/
lemma parseExclusions_sensitive :
    parseExclusions sensitiveSelect =
      ["password", "refreshToken", "emailVerificationToken",
       "emailVerificationExpiry"] := by
  rfl

/-- Every field surviving the sensitive-field projection has a key other
than the four excluded ones. -/
lemma mem_selectedUser_not_sensitive (u : UserRec) (kv : String × String)
    (h : kv ∈ selectedUser u) :
    kv.1 ≠ "password" ∧ kv.1 ≠ "refreshToken"
    ∧ kv.1 ≠ "emailVerificationToken" ∧ kv.1 ≠ "emailVerificationExpiry" := by
  have hp := (List.mem_filter.mp h).2
  rw [parseExclusions_sensitive] at hp
  have hmem : kv.1 ∉ ["password", "refreshToken", "emailVerificationToken",
      "emailVerificationExpiry"] := by
    intro hin
    rw [List.contains_eq_any_beq] at hp
    simp only [Bool.not_eq_true'] at hp
    have h2 : ((["password", "refreshToken", "emailVerificationToken",
        "emailVerificationExpiry"] : List String).any fun x => kv.1 == x) = true :=
      List.any_eq_true.mpr ⟨kv.1, hin, by simp⟩
    rw [h2] at hp
    exact Bool.true_eq_false.mp hp
  simp only [List.mem_cons, List.not_mem_nil, or_false, not_or] at hmem
  exact ⟨hmem.1, hmem.2.1, hmem.2.2.1, hmem.2.2.2⟩

/-! ## Theorems about the claims -/

/-- C7.  Logout is idempotent: the first `logoutUser` answers 200
"User logged out", a second `logoutUser` on the resulting store returns
exactly the same store and response, and after either call the user's
refresh token reference is absent. -/
theorem logoutUser_idempotent (db : List UserRec) (uid : Nat) :
    (logoutUser db uid).2 = (200, "User logged out")
    ∧ logoutUser (logoutUser db uid).1 uid = logoutUser db uid
    ∧ (∀ u ∈ (logoutUser db uid).1, u.id = uid → u.refreshToken = none) := by
  have hid : ∀ v : UserRec, (clearRT v).id = v.id := fun v => rfl
  have hrt : ∀ v : UserRec, (clearRT v).refreshToken = none := fun v => rfl
  have hidem : ∀ v : UserRec, clearRefresh uid (clearRefresh uid v)
      = clearRefresh uid v := by
    intro v
    by_cases h : (v.id == uid) = true <;>
      simp [clearRefresh, hid, h, show clearRT (clearRT v) = clearRT v from rfl]
  refine ⟨rfl, ?_, ?_⟩
  · simp only [logoutUser, List.map_map, Prod.mk.injEq, and_true, true_and]
    exact List.map_congr_left (fun v _ => hidem v)
  · intro u hu huid
    simp only [logoutUser, List.mem_map] at hu
    obtain ⟨v, _, hv⟩ := hu
    by_cases h : (v.id == uid) = true
    · rw [← hv]
      simp [clearRefresh, h, hrt]
    · rw [← hv] at huid ⊢
      simp only [clearRefresh, h, Bool.false_eq_true, if_false] at huid ⊢
      exact absurd (beq_iff_eq.mpr huid) (by simpa using h)

/-- C9.  The pre-save hook re-hashes exactly when the `password` path was
modified; consequently the saves that only write the refresh token (login)
or the pending verification secret (register / resend) leave the stored
password hash unchanged. -/
theorem save_without_password_keeps_hash (bhash : String → String) :
    (∀ d : UDoc, (saveDoc bhash d).urec.password =
        if d.passwordModified then bhash d.urec.password else d.urec.password)
    ∧ (∀ (u : UserRec) (t : Option String),
        (saveDoc bhash (setRefreshToken (loadDoc u) t)).urec.password = u.password)
    ∧ (∀ (u : UserRec) (tok : Option String) (expi : Option Nat),
        (saveDoc bhash (setEmailVerification (loadDoc u) tok expi)).urec.password
          = u.password) := by
  refine ⟨?_, ?_, ?_⟩
  · intro d
    by_cases h : d.passwordModified <;> simp [saveDoc, h]
  · intro u t
    simp [saveDoc, setRefreshToken, loadDoc]
  · intro u tok expi
    simp [saveDoc, setEmailVerification, loadDoc]

/-- C8.  A failed email dispatch is swallowed: `sendEmail` returns
normally whatever the transport outcome, and both `registerUser` and
`resendEmailVerification` produce the identical response and store state
whether dispatch succeeds or fails. -/
theorem email_dispatch_failure_swallowed (bhash sha256hex : String → String)
    (rnd : List Nat) (now : Nat) (freshId : Nat) (db : List UserRec)
    (body : RegisterBody) (uid : Nat) :
    (∀ dispatchOk : Bool, sendEmail dispatchOk = sendEmail true)
    ∧ registerUser bhash sha256hex rnd now true freshId db body
        = registerUser bhash sha256hex rnd now false freshId db body
    ∧ resendEmailVerification bhash sha256hex rnd now true db uid
        = resendEmailVerification bhash sha256hex rnd now false db uid := by
  refine ⟨fun dispatchOk => rfl, rfl, rfl⟩

/-- C10.  Login looks the user up by email only: the result never depends
on the `username` field of the body, and a body carrying a username but no
email still fails 400 with the message "Username or email is required". -/
theorem login_ignores_username (bhash : String → String)
    (bverify : String → String → Bool) (signAT signRT : UserRec → String)
    (db : List UserRec) (e p un un' : Option String) :
    loginUser bhash bverify signAT signRT db ⟨e, un, p⟩
      = loginUser bhash bverify signAT signRT db ⟨e, un', p⟩
    ∧ (∀ username password : String,
        loginUser bhash bverify signAT signRT db ⟨none, some username, some password⟩
          = .error ⟨400, "Username or email is required"⟩) := by
  refine ⟨rfl, fun username password => rfl⟩

/-- Hex digits are injective below 16 (finite check). -/
lemma hexDigit_inj_fin : ∀ a b : Fin 16, hexDigit a.val = hexDigit b.val → a = b := by
  decide

/-- Hex digits are injective below 16. -/
lemma hexDigit_inj (a b : Nat) (ha : a < 16) (hb : b < 16)
    (h : hexDigit a = hexDigit b) : a = b :=
  congrArg Fin.val (hexDigit_inj_fin ⟨a, ha⟩ ⟨b, hb⟩ h)

/-- Hex encoding is injective on byte lists: no entropy is lost between
the random bytes and the plaintext token. -/
lemma bytesToHex_inj (r1 r2 : List Nat) (h1 : ∀ b ∈ r1, b < 256)
    (h2 : ∀ b ∈ r2, b < 256) (h : bytesToHex r1 = bytesToHex r2) :
    r1 = r2 := by
  unfold bytesToHex at h
  have hl : r1.flatMap (fun b => [hexDigit (b / 16), hexDigit (b % 16)])
      = r2.flatMap (fun b => [hexDigit (b / 16), hexDigit (b % 16)]) :=
    congrArg String.data h
  clear h
  induction r1 generalizing r2 with
  | nil =>
    cases r2 with
    | nil => rfl
    | cons b bs => simp at hl
  | cons a as ih =>
    cases r2 with
    | nil => simp at hl
    | cons b bs =>
      simp only [List.flatMap_cons, List.cons_append, List.nil_append,
        List.cons.injEq] at hl
      obtain ⟨hd, hm, hrest⟩ := hl
      have ha : a < 256 := h1 a (by simp)
      have hb : b < 256 := h2 b (by simp)
      have hdiv : a / 16 = b / 16 :=
        hexDigit_inj _ _ (Nat.div_lt_of_lt_mul (by omega)) (Nat.div_lt_of_lt_mul (by omega)) hd
      have hmod : a % 16 = b % 16 :=
        hexDigit_inj _ _ (Nat.mod_lt _ (by omega)) (Nat.mod_lt _ (by omega)) hm
      have hab : a = b := by omega
      subst hab
      have := ih bs (fun x hx => h1 x (List.mem_cons_of_mem _ hx))
        (fun x hx => h2 x (List.mem_cons_of_mem _ hx)) hrest
      rw [this]

/-- C5.  `generateTemporaryToken` returns the hex plaintext of the 20
random bytes (`crypto.randomBytes(20)` supplies 160 bits of entropy, and
hex encoding is injective, so all 160 bits survive into the plaintext),
a hashed value that is the SHA-256 digest of exactly that plaintext
(determinism: the same digest function applied to the plaintext), and an
expiry of creation time plus exactly 20 minutes (20 * 60 * 1000 ms). -/
theorem generateTemporaryToken_spec (sha256hex : String → String)
    (rnd : List Nat) (now : Nat) :
    (generateTemporaryToken sha256hex rnd now).unHashedToken = bytesToHex rnd
    ∧ (generateTemporaryToken sha256hex rnd now).hashedToken
        = sha256hex (generateTemporaryToken sha256hex rnd now).unHashedToken
    ∧ (generateTemporaryToken sha256hex rnd now).tokenExpiry
        = now + 20 * 60 * 1000
    ∧ (∀ r1 r2 : List Nat, (∀ b ∈ r1, b < 256) → (∀ b ∈ r2, b < 256) →
        bytesToHex r1 = bytesToHex r2 → r1 = r2) :=
  ⟨rfl, rfl, rfl, bytesToHex_inj⟩

/-- Witness for C5 at a concrete byte list and clock. -/
theorem generateTemporaryToken_spec_witness :
    (generateTemporaryToken (fun s => s ++ "#") [171, 205] 7).tokenExpiry
        = 7 + 20 * 60 * 1000
    ∧ ([171, 205] : List Nat) = [171, 205] :=
  ⟨(generateTemporaryToken_spec (fun s => s ++ "#") [171, 205] 7).2.2.1,
   (generateTemporaryToken_spec (fun s => s ++ "#") [171, 205] 7).2.2.2
     [171, 205] [171, 205] (by decide) (by decide) rfl⟩

/-- C2.  `verifyUserEmail` answers the very same error — status 400,
message "Token is invalid or expired" — whether no user holds a matching
pending secret at all or users hold a matching secret whose expiry is not
in the future: both cases fall out of the single store query. -/
theorem verifyEmail_unknown_eq_expired (bhash sha256hex : String → String)
    (t : String) (ht : t.isEmpty = false) (now1 now2 : Nat)
    (db1 db2 : List UserRec)
    (hA : ∀ u ∈ db1, u.emailVerificationToken ≠ some (sha256hex t))
    (hB1 : ∃ u ∈ db2, u.emailVerificationToken = some (sha256hex t))
    (hB2 : ∀ u ∈ db2, u.emailVerificationToken = some (sha256hex t) →
        expiryGt u.emailVerificationExpiry now2 = false) :
    verifyUserEmail bhash sha256hex now1 db1 (some t)
      = .error ⟨400, "Token is invalid or expired"⟩
    ∧ verifyUserEmail bhash sha256hex now2 db2 (some t)
      = .error ⟨400, "Token is invalid or expired"⟩ := by
  constructor
  · unfold verifyUserEmail
    simp only [jsFalsy, ht, Bool.false_eq_true, if_false, Option.getD_some]
    have hfind : db1.find? (fun u =>
        u.emailVerificationToken == some (sha256hex t)
        && expiryGt u.emailVerificationExpiry now1) = none := by
      apply List.find?_eq_none.mpr
      intro u hu
      simp only [Bool.and_eq_true, beq_iff_eq, not_and]
      intro hc
      exact absurd hc (hA u hu)
    rw [hfind]
  · unfold verifyUserEmail
    simp only [jsFalsy, ht, Bool.false_eq_true, if_false, Option.getD_some]
    have hfind : db2.find? (fun u =>
        u.emailVerificationToken == some (sha256hex t)
        && expiryGt u.emailVerificationExpiry now2) = none := by
      apply List.find?_eq_none.mpr
      intro u hu
      simp only [Bool.and_eq_true, beq_iff_eq, not_and]
      intro hc
      rw [hB2 u hu hc]
      simp
    rw [hfind]

/-- C1.  The user summary handed back by Register, Login and
GetCurrentUser carries no `password` hash, no `refreshToken` reference and
no pending-secret field (`emailVerificationToken`,
`emailVerificationExpiry`): each of the three paths builds it through the
sensitive-field exclusion projection. -/
theorem user_summary_excludes_secrets (bhash sha256hex : String → String)
    (bverify : String → String → Bool) (signAT signRT : UserRec → String)
    (rnd : List Nat) (now freshId tid : Nat) (emailOk : Bool)
    (db : List UserRec) (rbody : RegisterBody) (lbody : LoginBody)
    (r : RegisterOk) (l : LoginOk) (fsR fsL fsG : List (String × String)) :
    (registerUser bhash sha256hex rnd now emailOk freshId db rbody = .ok r →
      r.user = some fsR →
      ∀ kv ∈ fsR, kv.1 ≠ "password" ∧ kv.1 ≠ "refreshToken"
        ∧ kv.1 ≠ "emailVerificationToken" ∧ kv.1 ≠ "emailVerificationExpiry")
    ∧ (loginUser bhash bverify signAT signRT db lbody = .ok l →
      l.user = some fsL →
      ∀ kv ∈ fsL, kv.1 ≠ "password" ∧ kv.1 ≠ "refreshToken"
        ∧ kv.1 ≠ "emailVerificationToken" ∧ kv.1 ≠ "emailVerificationExpiry")
    ∧ (verifyJWT db tid = .ok fsG →
      (getCurrentUser fsG).2 = fsG
      ∧ ∀ kv ∈ fsG, kv.1 ≠ "password" ∧ kv.1 ≠ "refreshToken"
        ∧ kv.1 ≠ "emailVerificationToken" ∧ kv.1 ≠ "emailVerificationExpiry") := by
  refine ⟨?_, ?_, ?_⟩
  · intro hreg huser kv hkv
    simp only [registerUser] at hreg
    split at hreg
    · exact Except.noConfusion hreg
    · split at hreg
      · exact Except.noConfusion hreg
      · rename_i cu hcu
        injection hreg with hr
        subst hr
        have h2 : some (selectedUser cu) = some fsR := huser
        obtain rfl := Option.some.inj h2
        exact mem_selectedUser_not_sensitive cu kv hkv
  · intro hlog huser kv hkv
    simp only [loginUser, generateAccessAndRefreshToken] at hlog
    split at hlog
    · exact Except.noConfusion hlog
    · split at hlog
      · exact Except.noConfusion hlog
      · split at hlog
        · exact Except.noConfusion hlog
        · rename_i u hu
          split at hlog
          · exact Except.noConfusion hlog
          · rcases hfi : findById db u.id with _ | w
            · rw [hfi] at hlog
              exact Except.noConfusion hlog
            · rw [hfi] at hlog
              injection hlog with hl
              subst hl
              rcases Option.map_eq_some'.mp huser with ⟨cu, hcu, hsel⟩
              subst hsel
              exact mem_selectedUser_not_sensitive cu kv hkv
  · intro hjwt
    unfold verifyJWT at hjwt
    split at hjwt
    · exact Except.noConfusion hjwt
    · rename_i u hu
      injection hjwt with h2
      subst h2
      exact ⟨rfl, fun kv hkv => mem_selectedUser_not_sensitive u kv hkv⟩

/-- Witness for C1: a concrete register run, a concrete login run and a
concrete GetCurrentUser all yield summaries free of the four sensitive
keys. -/
theorem user_summary_excludes_secrets_witness :
    (∀ kv ∈ (exOkReg regSample).user.getD [],
      kv.1 ≠ "password" ∧ kv.1 ≠ "refreshToken"
        ∧ kv.1 ≠ "emailVerificationToken" ∧ kv.1 ≠ "emailVerificationExpiry")
    ∧ (∀ kv ∈ (exOkLogin loginSample).user.getD [],
      kv.1 ≠ "password" ∧ kv.1 ≠ "refreshToken"
        ∧ kv.1 ≠ "emailVerificationToken" ∧ kv.1 ≠ "emailVerificationExpiry")
    ∧ ((getCurrentUser (selectedUser sampleUser)).2 = selectedUser sampleUser
      ∧ ∀ kv ∈ selectedUser sampleUser,
        kv.1 ≠ "password" ∧ kv.1 ≠ "refreshToken"
          ∧ kv.1 ≠ "emailVerificationToken" ∧ kv.1 ≠ "emailVerificationExpiry") :=
  ⟨(user_summary_excludes_secrets sampleHash sampleSha sampleVerify sampleSignA
      sampleSignR [1, 2] 0 3 1 true [] ⟨"a@x.com", "alice", "Alice", "Secret1!"⟩
      ⟨some "a@x.com", none, some "Secret1!"⟩ (exOkReg regSample) fallbackLoginOk
      ((exOkReg regSample).user.getD []) [] []).1 rfl rfl,
   (user_summary_excludes_secrets sampleHash sampleSha sampleVerify sampleSignA
      sampleSignR [1, 2] 0 3 1 true [sampleUser] ⟨"", "", "", ""⟩
      ⟨some "a@x.com", none, some "Secret1!"⟩ fallbackRegisterOk
      (exOkLogin loginSample) [] ((exOkLogin loginSample).user.getD []) []).2.1
      rfl rfl,
   (user_summary_excludes_secrets sampleHash sampleSha sampleVerify sampleSignA
      sampleSignR [1, 2] 0 3 1 true [sampleUser] ⟨"", "", "", ""⟩
      ⟨some "a@x.com", none, some "Secret1!"⟩ fallbackRegisterOk fallbackLoginOk
      [] [] (selectedUser sampleUser)).2.2 rfl⟩

/-- Witness for C2: an unknown token against one store and an expired
matching token against another produce the identical 400 error. -/
theorem verifyEmail_unknown_eq_expired_witness :
    verifyUserEmail sampleHash sampleSha 3 [sampleUser] (some "ab")
      = .error ⟨400, "Token is invalid or expired"⟩
    ∧ verifyUserEmail sampleHash sampleSha 10 [sampleUser2] (some "ab")
      = .error ⟨400, "Token is invalid or expired"⟩ :=
  verifyEmail_unknown_eq_expired sampleHash sampleSha "ab" rfl 3 10
    [sampleUser] [sampleUser2] (by decide) ⟨sampleUser2, by decide, by decide⟩
    (by decide)

/-- Witness for C7: double logout on a concrete store. -/
theorem logoutUser_idempotent_witness :
    (logoutUser [sampleUser2] 2).2 = (200, "User logged out")
    ∧ (clearRT sampleUser2).refreshToken = none :=
  ⟨(logoutUser_idempotent [sampleUser2] 2).1,
   (logoutUser_idempotent [sampleUser2] 2).2.2 (clearRT sampleUser2)
     (by decide) (by decide)⟩

/-- C3.  A successful `verifyUserEmail` sets `isEmailVerified`, clears
both pending-secret fields, and — provided the matched user is the only
holder of that hashed token — a second call with the same plaintext fails
400 at any later clock. -/
theorem verifyEmail_consumes_secret (bhash sha256hex : String → String)
    (now : Nat) (db : List UserRec) (t : String) (u : UserRec)
    (ht : t.isEmpty = false)
    (hfind : db.find? (fun v => v.emailVerificationToken == some (sha256hex t)
        && expiryGt v.emailVerificationExpiry now) = some u)
    (huniq : ∀ v ∈ db, v.emailVerificationToken = some (sha256hex t) → v.id = u.id) :
    ∃ db1, verifyUserEmail bhash sha256hex now db (some t) = .ok (db1, true)
    ∧ (∀ v ∈ db1, v.id = u.id →
        v.isEmailVerified = true ∧ v.emailVerificationToken = none
        ∧ v.emailVerificationExpiry = none)
    ∧ (∀ now2, verifyUserEmail bhash sha256hex now2 db1 (some t)
        = .error ⟨400, "Token is invalid or expired"⟩) := by
  have hu2 : (saveDoc bhash (setIsEmailVerified
      (setEmailVerification (loadDoc u) none none) true)).urec
      = consumeVerification u := rfl
  refine ⟨writeBack db (consumeVerification u), ?_, ?_, ?_⟩
  · unfold verifyUserEmail
    simp only [jsFalsy, ht, Bool.false_eq_true, if_false, Option.getD_some]
    rw [hfind]
    rfl
  · intro v hv hvid
    simp only [writeBack, List.mem_map] at hv
    obtain ⟨w, hw, hweq⟩ := hv
    rw [show (consumeVerification u).id = u.id from rfl] at hweq
    by_cases hc : (w.id == u.id) = true
    · rw [if_pos hc] at hweq
      rw [← hweq]
      exact ⟨rfl, rfl, rfl⟩
    · rw [if_neg (by simpa using hc)] at hweq
      subst hweq
      exact absurd (beq_iff_eq.mpr hvid) (by simpa using hc)
  · intro now2
    unfold verifyUserEmail
    simp only [jsFalsy, ht, Bool.false_eq_true, if_false, Option.getD_some]
    have hnone : (writeBack db (consumeVerification u)).find?
        (fun v => v.emailVerificationToken == some (sha256hex t)
          && expiryGt v.emailVerificationExpiry now2) = none := by
      apply List.find?_eq_none.mpr
      intro v hv
      simp only [writeBack, List.mem_map] at hv
      obtain ⟨w, hw, hweq⟩ := hv
      rw [show (consumeVerification u).id = u.id from rfl] at hweq
      by_cases hc : (w.id == u.id) = true
      · rw [if_pos hc] at hweq
        rw [← hweq]
        simp [consumeVerification]
      · rw [if_neg (by simpa using hc)] at hweq
        subst hweq
        simp only [Bool.and_eq_true, beq_iff_eq, not_and]
        intro hvt
        exact absurd (beq_iff_eq.mpr (huniq w hw hvt)) (by simpa using hc)
    rw [hnone]

/-- Witness for C3: a concrete store whose single user holds the pending
secret for plaintext "ab", verified at clock 3 (expiry 1000), then
replayed. -/
theorem verifyEmail_consumes_secret_witness :
    ∃ db1, verifyUserEmail sampleHash sampleSha 3
        [{ sampleUser with emailVerificationToken := some "ab#" }] (some "ab")
        = .ok (db1, true)
    ∧ (∀ v ∈ db1, v.id = sampleUser.id →
        v.isEmailVerified = true ∧ v.emailVerificationToken = none
        ∧ v.emailVerificationExpiry = none)
    ∧ (∀ now2, verifyUserEmail sampleHash sampleSha now2 db1 (some "ab")
        = .error ⟨400, "Token is invalid or expired"⟩) :=
  verifyEmail_consumes_secret sampleHash sampleSha 3
    [{ sampleUser with emailVerificationToken := some "ab#" }] "ab"
    { sampleUser with emailVerificationToken := some "ab#" }
    rfl (by decide) (by decide)

/-- Distinct `ApiError` payloads give distinct error results. -/
lemma errNe {α : Type} {a b : ApiError} (h : a ≠ b) :
    (Except.error a : Except ApiError α) ≠ Except.error b := by
  intro hc
  injection hc with h2
  exact h h2

/-- C4.  The three login failure kinds arise in exactly the cases the spec
gives: 400 exactly when email (or, the email being present, the password)
is missing, 404 exactly when no record has the given email, and 401
exactly when the record exists but the password fails the bcrypt
comparison. -/
theorem login_error_taxonomy (bhash : String → String)
    (bverify : String → String → Bool) (signAT signRT : UserRec → String)
    (db : List UserRec) (body : LoginBody) :
    (loginUser bhash bverify signAT signRT db body
        = .error ⟨400, "Username or email is required"⟩
      ↔ jsFalsy body.email = true)
    ∧ (loginUser bhash bverify signAT signRT db body
        = .error ⟨400, "password is required"⟩
      ↔ jsFalsy body.email = false ∧ jsFalsy body.password = true)
    ∧ (loginUser bhash bverify signAT signRT db body
        = .error ⟨404, "User doesn't exists"⟩
      ↔ jsFalsy body.email = false ∧ jsFalsy body.password = false
        ∧ findByEmail db (body.email.getD "") = none)
    ∧ (loginUser bhash bverify signAT signRT db body
        = .error ⟨401, "!Invalid username or password"⟩
      ↔ jsFalsy body.email = false ∧ jsFalsy body.password = false
        ∧ ∃ u, findByEmail db (body.email.getD "") = some u
            ∧ bverify (body.password.getD "") u.password = false) := by
  by_cases he : jsFalsy body.email = true
  · have hL : loginUser bhash bverify signAT signRT db body
        = .error ⟨400, "Username or email is required"⟩ := by
      simp [loginUser, he]
    rw [hL]
    exact ⟨⟨fun _ => he, fun _ => rfl⟩,
      ⟨fun h => absurd h (errNe (by decide)), fun hh => by simp [he] at hh⟩,
      ⟨fun h => absurd h (errNe (by decide)), fun hh => by simp [he] at hh⟩,
      ⟨fun h => absurd h (errNe (by decide)), fun hh => by simp [he] at hh⟩⟩
  · rw [Bool.not_eq_true] at he
    by_cases hp : jsFalsy body.password = true
    · have hL : loginUser bhash bverify signAT signRT db body
          = .error ⟨400, "password is required"⟩ := by
        simp [loginUser, he, hp]
      rw [hL]
      exact ⟨⟨fun h => absurd h (errNe (by decide)), fun hh => by simp [hh] at he⟩,
        ⟨fun _ => ⟨he, hp⟩, fun _ => rfl⟩,
        ⟨fun h => absurd h (errNe (by decide)), fun hh => by simp [hp] at hh⟩,
        ⟨fun h => absurd h (errNe (by decide)), fun hh => by simp [hp] at hh⟩⟩
    · rw [Bool.not_eq_true] at hp
      rcases hfe : findByEmail db (body.email.getD "") with _ | u
      · have hL : loginUser bhash bverify signAT signRT db body
            = .error ⟨404, "User doesn't exists"⟩ := by
          simp [loginUser, he, hp, hfe]
        rw [hL]
        refine ⟨⟨fun h => absurd h (errNe (by decide)), fun hh => by simp [hh] at he⟩,
          ⟨fun h => absurd h (errNe (by decide)), fun hh => by simp [hh.2] at hp⟩,
          ⟨fun _ => ⟨he, hp, rfl⟩, fun _ => rfl⟩,
          ⟨fun h => absurd h (errNe (by decide)), fun hh => ?_⟩⟩
        obtain ⟨u, hu, _⟩ := hh.2.2
        exact Option.noConfusion hu
      · by_cases hv : bverify (body.password.getD "") u.password = true
        · rcases hfi : findById db u.id with _ | w
          · have hL : loginUser bhash bverify signAT signRT db body
                = .error ⟨500, "Something went wrong while generating access token"⟩ := by
              simp [loginUser, generateAccessAndRefreshToken, he, hp, hfe, hv, hfi]
            rw [hL]
            refine ⟨⟨fun h => absurd h (errNe (by decide)), fun hh => by simp [hh] at he⟩,
              ⟨fun h => absurd h (errNe (by decide)), fun hh => by simp [hh.2] at hp⟩,
              ⟨fun h => absurd h (errNe (by decide)),
                fun hh => Option.noConfusion hh.2.2⟩,
              ⟨fun h => absurd h (errNe (by decide)), fun hh => ?_⟩⟩
            obtain ⟨u2, hu2, hbv⟩ := hh.2.2
            cases Option.some.inj hu2
            simp [hv] at hbv
          · obtain ⟨res, hok⟩ : ∃ res, loginUser bhash bverify signAT signRT db body
                = .ok res := by
              simp [loginUser, generateAccessAndRefreshToken, he, hp, hfe, hv, hfi]
            rw [hok]
            refine ⟨⟨fun h => Except.noConfusion h, fun hh => by simp [hh] at he⟩,
              ⟨fun h => Except.noConfusion h, fun hh => by simp [hh.2] at hp⟩,
              ⟨fun h => Except.noConfusion h,
                fun hh => Option.noConfusion hh.2.2⟩,
              ⟨fun h => Except.noConfusion h, fun hh => ?_⟩⟩
            obtain ⟨u2, hu2, hbv⟩ := hh.2.2
            cases Option.some.inj hu2
            simp [hv] at hbv
        · rw [Bool.not_eq_true] at hv
          have hL : loginUser bhash bverify signAT signRT db body
              = .error ⟨401, "!Invalid username or password"⟩ := by
            simp [loginUser, he, hp, hfe, hv]
          rw [hL]
          exact ⟨⟨fun h => absurd h (errNe (by decide)), fun hh => by simp [hh] at he⟩,
            ⟨fun h => absurd h (errNe (by decide)), fun hh => by simp [hh.2] at hp⟩,
            ⟨fun h => absurd h (errNe (by decide)),
              fun hh => Option.noConfusion hh.2.2⟩,
            ⟨fun _ => ⟨he, hp, u, rfl, hv⟩, fun _ => rfl⟩⟩

/-- Strings sharing a left factor are equal iff the right factors are. -/
lemma strAppend_inj (a b c : String) (h : a ++ b = a ++ c) : b = c := by
  have hd := congrArg String.data h
  simp only [String.data_append] at hd
  have h2 := List.append_cancel_left hd
  cases b
  cases c
  exact congrArg String.mk h2

/-- The sample hasher and verifier satisfy the bcrypt contract: a
plaintext verifies against a hash exactly when it is the hashed
plaintext. -/
lemma sampleCrypt : ∀ p q : String, sampleVerify p (sampleHash q) = (p == q) := by
  intro p q
  unfold sampleVerify sampleHash
  by_cases h : p = q
  · subst h
    simp
  · have h1 : (("H:" ++ q : String) == "H:" ++ p) = false :=
      beq_eq_false_iff_ne.mpr (fun hc => h (strAppend_inj _ _ _ hc).symm)
    have h2 : (p == q) = false := beq_eq_false_iff_ne.mpr h
    rw [h1, h2]

/-- C6.  With a store laid out as `pre ++ u :: post` where no earlier
record shares the user's id or email (store uniqueness), a correct old
password makes `changeCurrentPassword` succeed and replace the stored
hash; afterwards login with the old password fails 401 and login with the
new password succeeds.  The bcrypt contract is the hypothesis `hcrypt`. -/
theorem changePassword_then_login (bhash : String → String)
    (bverify : String → String → Bool) (signAT signRT : UserRec → String)
    (pre post : List UserRec) (u : UserRec) (oldPw newPw : String)
    (hcrypt : ∀ p q, bverify p (bhash q) = (p == q))
    (hpre : ∀ v ∈ pre, v.id ≠ u.id ∧ v.email ≠ u.email)
    (hold : bverify oldPw u.password = true)
    (hneq : oldPw ≠ newPw)
    (hop : oldPw.isEmpty = false) (hnp : newPw.isEmpty = false)
    (hem : u.email.isEmpty = false) :
    ∃ db1, changeCurrentPassword bverify bhash (pre ++ u :: post) u.id oldPw newPw
        = .ok (db1, 200)
    ∧ (∀ v ∈ db1, v.id = u.id → v.password = bhash newPw)
    ∧ loginUser bhash bverify signAT signRT db1 ⟨some u.email, none, some oldPw⟩
        = .error ⟨401, "!Invalid username or password"⟩
    ∧ ∃ res, loginUser bhash bverify signAT signRT db1
        ⟨some u.email, none, some newPw⟩ = .ok res := by
  have hu2 : (saveDoc bhash (setPassword (loadDoc u) newPw)).urec
      = replacePassword u (bhash newPw) := rfl
  have hu2id : (replacePassword u (bhash newPw)).id = u.id := rfl
  have hu2em : (replacePassword u (bhash newPw)).email = u.email := rfl
  have hu2pw : (replacePassword u (bhash newPw)).password = bhash newPw := rfl
  have hfindid : findById (pre ++ u :: post) u.id = some u := by
    unfold findById
    rw [List.find?_append]
    have h1 : pre.find? (fun v => v.id == u.id) = none :=
      List.find?_eq_none.mpr (fun v hv => by simp [(hpre v hv).1])
    rw [h1, Option.none_or, List.find?_cons_of_pos _ (by simp)]
  have hchange : changeCurrentPassword bverify bhash (pre ++ u :: post) u.id
      oldPw newPw
      = .ok (writeBack (pre ++ u :: post) (replacePassword u (bhash newPw)), 200) := by
    unfold changeCurrentPassword
    rw [hfindid]
    simp only [hold, Bool.not_true, Bool.false_eq_true, if_false]
    rfl
  have hfe1 : findByEmail
      (writeBack (pre ++ u :: post) (replacePassword u (bhash newPw))) u.email
      = some (replacePassword u (bhash newPw)) := by
    unfold findByEmail writeBack
    rw [List.map_append, List.find?_append]
    have h1 : (pre.map (fun v => if v.id == (replacePassword u (bhash newPw)).id
        then replacePassword u (bhash newPw) else v)).find?
        (fun v => v.email == u.email) = none := by
      apply List.find?_eq_none.mpr
      intro v hv
      simp only [List.mem_map] at hv
      obtain ⟨w, hw, hweq⟩ := hv
      rw [if_neg (by simp [replacePassword, (hpre w hw).1])] at hweq
      subst hweq
      simp [(hpre w hw).2]
    rw [h1, Option.none_or]
    simp only [List.map_cons]
    rw [if_pos (by simp [replacePassword])]
    rw [List.find?_cons_of_pos _ (by simp [replacePassword])]
  have hfi1 : findById
      (writeBack (pre ++ u :: post) (replacePassword u (bhash newPw)))
      (replacePassword u (bhash newPw)).id
      = some (replacePassword u (bhash newPw)) := by
    unfold findById writeBack
    rw [List.map_append, List.find?_append]
    have h1 : (pre.map (fun v => if v.id == (replacePassword u (bhash newPw)).id
        then replacePassword u (bhash newPw) else v)).find?
        (fun v => v.id == (replacePassword u (bhash newPw)).id) = none := by
      apply List.find?_eq_none.mpr
      intro v hv
      simp only [List.mem_map] at hv
      obtain ⟨w, hw, hweq⟩ := hv
      rw [if_neg (by simp [replacePassword, (hpre w hw).1])] at hweq
      subst hweq
      simp [replacePassword, (hpre w hw).1]
    rw [h1, Option.none_or]
    simp only [List.map_cons]
    rw [if_pos (by simp [replacePassword])]
    rw [List.find?_cons_of_pos _ (by simp [replacePassword])]
  have hbad : bverify oldPw (replacePassword u (bhash newPw)).password = false := by
    rw [hu2pw, hcrypt]
    exact beq_eq_false_iff_ne.mpr hneq
  have hgood : bverify newPw (replacePassword u (bhash newPw)).password = true := by
    rw [hu2pw, hcrypt]
    simp
  refine ⟨writeBack (pre ++ u :: post) (replacePassword u (bhash newPw)),
    hchange, ?_, ?_, ?_⟩
  · intro v hv hvid
    simp only [writeBack, List.mem_map] at hv
    obtain ⟨w, hw, hweq⟩ := hv
    rw [hu2id] at hweq
    by_cases hc : (w.id == u.id) = true
    · rw [if_pos hc] at hweq
      rw [← hweq]
      rfl
    · rw [if_neg (by simpa using hc)] at hweq
      subst hweq
      exact absurd (beq_iff_eq.mpr hvid) (by simpa using hc)
  · simp [loginUser, jsFalsy, hem, hop, hfe1, hbad]
  · simp [loginUser, generateAccessAndRefreshToken, jsFalsy, hem, hnp,
      hfe1, hgood, hfi1]

/-- Witness for C4: wrong password for an existing user yields the 401
error via the taxonomy. -/
theorem login_error_taxonomy_witness :
    loginUser sampleHash sampleVerify sampleSignA sampleSignR [sampleUser]
      ⟨some "a@x.com", none, some "wrong"⟩
      = .error ⟨401, "!Invalid username or password"⟩ :=
  (login_error_taxonomy sampleHash sampleVerify sampleSignA sampleSignR
    [sampleUser] ⟨some "a@x.com", none, some "wrong"⟩).2.2.2.mpr
    ⟨rfl, rfl, sampleUser, by decide, by decide⟩

/-- Witness for C6: a concrete password change followed by both logins. -/
theorem changePassword_then_login_witness :
    ∃ db1, changeCurrentPassword sampleVerify sampleHash [sampleUser]
        sampleUser.id "Secret1!" "NewPw2@" = .ok (db1, 200)
    ∧ (∀ v ∈ db1, v.id = sampleUser.id → v.password = sampleHash "NewPw2@")
    ∧ loginUser sampleHash sampleVerify sampleSignA sampleSignR db1
        ⟨some sampleUser.email, none, some "Secret1!"⟩
        = .error ⟨401, "!Invalid username or password"⟩
    ∧ ∃ res, loginUser sampleHash sampleVerify sampleSignA sampleSignR db1
        ⟨some sampleUser.email, none, some "NewPw2@"⟩ = .ok res :=
  changePassword_then_login sampleHash sampleVerify sampleSignA sampleSignR
    [] [] sampleUser "Secret1!" "NewPw2@" sampleCrypt (by simp)
    (by decide) (by decide) rfl rfl rfl
